import Mathlib

/-!
Shallow embedding of the `alsa_midi.client` module (file
`src/alsa_midi/client.py`) of python-alsa-midi, for checking the
natural-language specification against the code.

Conventions of the embedding:
* Native ALSA calls are oracles: their integer status codes are explicit
  parameters of the Lean functions, and the list of native calls attempted
  is returned alongside the result, so that "checked before any native
  call" style properties are statable.
* Python exceptions become an explicit error result (`PyErr`): `StateError`
  raised by `_check_handle`, ALSA errors raised by `_check_alsa_error`,
  and the `TypeError` the FFI layer raises when a native function is
  invoked with a `None` handle (after `close()` set `self.handle = None`).
* Time is modelled with rationals (`ℚ`); `time.monotonic()` is an oracle
  `clock : Nat → ℚ` sampled in call order (sample 0 at call start, sample
  `i+1` at the would-block re-check of loop iteration `i`).
* Unbounded `while True` loops take explicit fuel; running out of fuel is
  the distinguished result `WaitResult.noFuel` ("still looping"), and an
  operation awaiting forever in the cooperative variant is
  `WaitResult.pending`.
-/

/-- `errno.EAGAIN` on Linux: the "would block" status is `-EAGAIN`. -/
def EAGAIN : Int := 11

/-- `errno.ENOENT` on Linux: query exhaustion is signalled by `-ENOENT`. -/
def ENOENT : Int := 2

/-- `select.POLLIN` on Linux. -/
def POLLIN : Nat := 1

/-- `select.POLLOUT` on Linux. -/
def POLLOUT : Nat := 4

/-- Modelled from the spec: the port capability bits come from the
collaborator module `alsa_midi.port` (not present under `src/`); the spec
names the read / write / subscribable / no-export capabilities.  The
numeric values are the standard ALSA ones; the claims depend only on the
bits being distinct. -/
def PORT_CAP_READ : Nat := 1

/-- Modelled from the spec: write capability bit (see `PORT_CAP_READ`). -/
def PORT_CAP_WRITE : Nat := 2

/-- Modelled from the spec: subscribable-read capability bit. -/
def PORT_CAP_SUBS_READ : Nat := 32

/-- Modelled from the spec: subscribable-write capability bit. -/
def PORT_CAP_SUBS_WRITE : Nat := 64

/-- Modelled from the spec: no-export capability bit. -/
def PORT_CAP_NO_EXPORT : Nat := 128

/-- The Python exceptions the client module can surface. -/
inductive PyErr where
  /-- `StateError("Already closed")` raised by `SequencerClientBase._check_handle`. -/
  | state
  /-- An ALSA error raised by `_check_alsa_error` for a negative status. -/
  | alsa (code : Int)
  /-- The `TypeError` cffi raises when a native function is passed the
  `None` that `self.handle` holds after `close()`. -/
  | typeError
deriving DecidableEq, Repr

/-- Result of a Python call: normal return or raised exception. -/
inductive PyResult (α : Type) where
  | ok (a : α)
  | err (e : PyErr)
deriving DecidableEq, Repr

/-- Result of an operation together with the trace of native (ALSA
library) calls it attempted, in order. -/
structure OpResult (α : Type) where
  result : PyResult α
  nativeCalls : List String
deriving DecidableEq, Repr

/-- The handle-lifecycle state of a `SequencerClientBase`.
`handle_p = none` models `self._handle_p is None` (the closed state, in
which `self.handle` is also `None`); `handle_p = some nonNull` models an
open client whose `_handle_p[0]` is NULL or not according to `nonNull`.
`closeCalls` counts the `snd_seq_close` native calls performed, to state
that a repeated `close()` releases nothing. -/
structure ClientState where
  handle_p : Option Bool
  client_id : Int
  closeCalls : Nat
deriving DecidableEq, Repr

/-- `SequencerClientBase.close`: returns immediately when `_handle_p` is
already `None`; otherwise calls `snd_seq_close` when the pointer is not
NULL, then sets both `_handle_p` and `handle` to `None`.  It never
raises. -/
def ClientState.close (st : ClientState) : ClientState :=
  match st.handle_p with
  | none => st
  | some nonNull =>
      { st with
        handle_p := none,
        closeCalls := st.closeCalls + (if nonNull then 1 else 0) }

/-- The decoded client metadata snapshot (`ClientInfo`).  The `type`
field of the Python class is held as a raw integer `ctype`. -/
structure ClientInfoM where
  client_id : Int
  name : String
  broadcast_filter : Bool
  error_bounce : Bool
  ctype : Int
  card_id : Option Int
  pid : Option Int
  num_ports : Int
  event_lost : Int
deriving DecidableEq, Repr

/-- The native `snd_seq_client_info_t` record, one field per accessor the
module uses.  `broadcast_filter` and `error_bounce` are the values the
accessors `snd_seq_client_info_get_broadcast_filter` and
`snd_seq_client_info_get_error_bounce` would return. -/
structure NativeClientInfoRec where
  client : Int
  name : String
  broadcast_filter : Int
  error_bounce : Int
  ctype : Int
  card : Int
  pid : Int
  num_ports : Int
  event_lost : Int
deriving DecidableEq, Repr

/-- `ClientInfo._from_alsa`: decodes a native record into a snapshot.
Note that in the source both local variables `broadcast_filter` and
`error_bounce` are read from `snd_seq_client_info_get_broadcast_filter`
(lines 77-78); the record's error-bounce accessor is never called. -/
def ClientInfoM.from_alsa (info : NativeClientInfoRec) : ClientInfoM :=
  let broadcast_filter := info.broadcast_filter
  let error_bounce := info.broadcast_filter
  { client_id := info.client,
    name := info.name,
    broadcast_filter := broadcast_filter == 1,
    error_bounce := error_bounce == 1,
    ctype := info.ctype,
    card_id := if info.card ≥ 0 then some info.card else none,
    pid := if info.pid > 0 then some info.pid else none,
    num_ports := info.num_ports,
    event_lost := info.event_lost }

/-- Outcome of `query_next_client`: the Python result plus the client-id
cursor written into the native record before the query call (`none` when
the query was never attempted because of an earlier failure). -/
structure QueryOut where
  result : PyResult (Option ClientInfoM)
  cursor_client : Option Int
deriving DecidableEq, Repr

/-- Common tail of `query_next_client`: run the native query (status
`queryRes`), translating `-ENOENT` to `None`, raising on any other
negative status, decoding `outRec` otherwise.  `cursor` is the client id
that was set on the native record. -/
def query_tail (cursor : Int) (queryRes : Int) (outRec : NativeClientInfoRec) : QueryOut :=
  if queryRes = -ENOENT then ⟨.ok none, some cursor⟩
  else if queryRes < 0 then ⟨.err (.alsa queryRes), some cursor⟩
  else ⟨.ok (some (ClientInfoM.from_alsa outRec)), some cursor⟩

/-- `SequencerClientBase.query_next_client`.  `previous` is a prior
`ClientInfo` snapshot (left), a plain client id (right), or absent.
`mallocErr` is the status of `snd_seq_client_info_malloc` (performed
either in `ClientInfo._to_alsa` or inline), `queryRes` the status of
`snd_seq_query_next_client`, `outRec` the record contents after a
successful query. -/
def query_next_client (st : ClientState) (previous : Option (ClientInfoM ⊕ Int))
    (mallocErr : Int) (queryRes : Int) (outRec : NativeClientInfoRec) : QueryOut :=
  match st.handle_p with
  | none => ⟨.err .state, none⟩
  | some _ =>
    if mallocErr < 0 then ⟨.err (.alsa mallocErr), none⟩
    else
      match previous with
      | some (.inl info) => query_tail info.client_id queryRes outRec
      | some (.inr prevId) => query_tail prevId queryRes outRec
      | none => query_tail (-1) queryRes outRec

/-- `SequencerClientBase.create_port`: checks the handle, then calls
`snd_seq_create_simple_port` (status `portRes`) and checks the status. -/
def create_port (st : ClientState) (portRes : Int) : OpResult Int :=
  match st.handle_p with
  | none => ⟨.err .state, []⟩
  | some _ =>
      if portRes < 0 then ⟨.err (.alsa portRes), ["snd_seq_create_simple_port"]⟩
      else ⟨.ok portRes, ["snd_seq_create_simple_port"]⟩

/-- `SequencerClientBase.event_output`: checks the handle, then encodes
and calls `snd_seq_event_output` (status `outRes`) and checks the
status. -/
def event_output_base (st : ClientState) (outRes : Int) : OpResult Int :=
  match st.handle_p with
  | none => ⟨.err .state, []⟩
  | some _ =>
      if outRes < 0 then ⟨.err (.alsa outRes), ["snd_seq_event_output"]⟩
      else ⟨.ok outRes, ["snd_seq_event_output"]⟩

/-- `SequencerClientBase.event_input`: calls `self._event_input()` —
which invokes `snd_seq_event_input(self.handle, buf)` — and then
`_check_alsa_error`.  There is no `_check_handle()` call: on a closed
client the native call is attempted with `self.handle = None` and the
FFI layer raises a `TypeError`.  The decoded event is summarised by the
returned status (event decoding is the external event-codec
collaborator). -/
def event_input_base (st : ClientState) (inputRes : Int) : OpResult Int :=
  match st.handle_p with
  | none => ⟨.err .typeError, ["snd_seq_event_input"]⟩
  | some _ =>
      if inputRes < 0 then ⟨.err (.alsa inputRes), ["snd_seq_event_input"]⟩
      else ⟨.ok inputRes, ["snd_seq_event_input"]⟩

/-- The decoded port metadata snapshot (`PortInfo`) with the fields this
module touches; `ptype` is the `type` attribute of the Python class. -/
structure PortInfoM where
  client_id : Int
  port_id : Int
  name : String
  capability : Nat
  ptype : Nat
  client_name : String
deriving DecidableEq, Repr

/-- `SequencerClientBase.get_port_info`.  `port` is a bare port id
(left, resolved against the own client id) or a `(client, port)`
address (right).  There is no `_check_handle()` call: the function
proceeds straight to `snd_seq_port_info_malloc` (status `mallocErr`),
then calls `snd_seq_get_port_info` / `snd_seq_get_any_port_info`
(status `getErr`) with `self.handle`; on a closed client that handle is
`None` and the FFI raises a `TypeError`, after which the `finally`
block still frees the record.  `decoded` is the snapshot
`PortInfo._from_alsa` produces on success. -/
def get_port_info (st : ClientState) (port : Int ⊕ (Int × Int))
    (mallocErr getErr : Int) (decoded : PortInfoM) : OpResult PortInfoM :=
  let cp : Int × Int :=
    match port with
    | .inl portId => (st.client_id, portId)
    | .inr a => a
  if mallocErr < 0 then ⟨.err (.alsa mallocErr), ["snd_seq_port_info_malloc"]⟩
  else
    let callName :=
      if cp.1 = st.client_id then "snd_seq_get_port_info" else "snd_seq_get_any_port_info"
    match st.handle_p with
    | none =>
        ⟨.err .typeError,
         ["snd_seq_port_info_malloc", callName, "snd_seq_port_info_free"]⟩
    | some _ =>
        if getErr < 0 then
          ⟨.err (.alsa getErr),
           ["snd_seq_port_info_malloc", callName, "snd_seq_port_info_free"]⟩
        else
          ⟨.ok decoded,
           ["snd_seq_port_info_malloc", callName, "snd_seq_port_info_free"]⟩

/-- The transient `snd_seq_port_subscribe_t` contents as set by
`_subunsub_port` before submission. -/
structure SubRecord where
  sender : Int × Int
  dest : Int × Int
  queue : Option Int
  exclusive : Bool
  time_update : Bool
  time_real : Bool
deriving DecidableEq, Repr

/-- Outcome of `subscribe_port` / `unsubscribe_port`: Python result,
whether the transient subscription descriptor was allocated, whether it
was freed, and the record that was submitted (if any). -/
structure SubOut where
  result : PyResult Unit
  allocated : Bool
  freed : Bool
  record : Option SubRecord
deriving DecidableEq, Repr

/-- `subscribe_port` / `unsubscribe_port` via `_subunsub_port`: the
public wrappers call `_check_handle()` first; `_subunsub_port` then
allocates the subscription descriptor (`snd_seq_port_subscribe_malloc`,
status `mallocErr`), and inside a `try` block sets sender, destination,
optional queue and the three flags, submits (`funcRes` is the status of
`snd_seq_subscribe_port` / `snd_seq_unsubscribe_port`) and checks the
status; the `finally` block frees the descriptor on both the normal and
the raising path. -/
def subunsub_port (st : ClientState) (sender dest : Int × Int) (queue : Option Int)
    (exclusive time_update time_real : Bool) (mallocErr funcRes : Int) : SubOut :=
  match st.handle_p with
  | none => ⟨.err .state, false, false, none⟩
  | some _ =>
    if mallocErr < 0 then ⟨.err (.alsa mallocErr), false, false, none⟩
    else
      let sub : SubRecord :=
        { sender := sender, dest := dest, queue := queue,
          exclusive := exclusive, time_update := time_update, time_real := time_real }
      if funcRes < 0 then ⟨.err (.alsa funcRes), true, true, some sub⟩
      else ⟨.ok (), true, true, some sub⟩

/-- One client's record in the enumeration performed by `list_ports`:
its id, name, and the ports the port cursor yields for it. -/
structure ClientRec where
  client_id : Int
  name : String
  ports : List PortInfoM
deriving DecidableEq, Repr

/-- The per-port filter of the inner loop of
`SequencerClientBase.list_ports`: type-mask test (skipped when the
requested `ptype` mask is falsy, i.e. zero), no-export exclusion, and
the direction/connectability rules.  `input` and `output` are the
truthiness of the keyword arguments. -/
def list_ports_keep (input output : Bool) (ptype : Nat)
    (include_no_export only_connectable : Bool) (p : PortInfoM) : Bool :=
  if ptype ≠ 0 ∧ (p.ptype &&& ptype) ≠ ptype then false
  else if (p.capability &&& PORT_CAP_NO_EXPORT) ≠ 0 ∧ ¬include_no_export then false
  else
    let can_write := (p.capability &&& PORT_CAP_WRITE) ≠ 0
    let can_sub_write := (p.capability &&& PORT_CAP_SUBS_WRITE) ≠ 0
    let can_read := (p.capability &&& PORT_CAP_READ) ≠ 0
    let can_sub_read := (p.capability &&& PORT_CAP_SUBS_READ) ≠ 0
    if output ∧ ¬can_write then false
    else if output ∧ only_connectable ∧ ¬can_sub_write then false
    else if input ∧ ¬can_read then false
    else if input ∧ only_connectable ∧ ¬can_sub_read then false
    else if ¬input ∧ ¬output then
      if only_connectable then
        if can_read ∧ can_sub_read then true
        else if can_write ∧ can_sub_write then true
        else false
      else if ¬can_read ∧ ¬can_write then false
      else true
    else true

/-- The collection phase of `SequencerClientBase.list_ports` (before
sorting): outer loop over clients — skipping client 0 unless
`include_system`, and clients named "Midi Through" unless
`include_midi_through` — inner loop over each client's ports filtered
by `list_ports_keep`; each kept port is annotated with the owning
client's name and appended. -/
def list_ports_collect (input output : Bool) (ptype : Nat)
    (include_system include_midi_through include_no_export only_connectable : Bool)
    (clients : List ClientRec) : List PortInfoM :=
  clients.flatMap fun c =>
    if c.client_id = 0 ∧ ¬include_system then []
    else if c.name = "Midi Through" ∧ ¬include_midi_through then []
    else
      (c.ports.filter
        (list_ports_keep input output ptype include_no_export only_connectable)).map
        fun p => { p with client_name := c.name }

/-- Which sort key `list_ports` ends up using. -/
inductive SortKeySel where
  /-- a caller-supplied callable `sort` -/
  | caller
  /-- `get_port_info_sort_key(READ_PORT_PREFERRED_TYPES)` -/
  | read_pref
  /-- `get_port_info_sort_key(WRITE_PORT_PREFERRED_TYPES)` -/
  | write_pref
  /-- `get_port_info_sort_key(RW_PORT_PREFERRED_TYPES)` -/
  | rw_pref
  /-- no sorting (`sort` falsy) -/
  | nosort
deriving DecidableEq, Repr

/-- The sort-key selection at the end of `SequencerClientBase.list_ports`
(lines 457-467), with the sequential assignments to the Python local
`sort_key` modelled by shadowing `let`s: `if callable(sort)` picks the
caller's key; `elif sort:` runs `if input and not output: sort_key =
read` followed by the separate statement `if output and not input:
sort_key = write / else: sort_key = rw` — whose `else` branch reassigns
`sort_key` unconditionally, discarding the first assignment. -/
def list_ports_sort_sel (sortCallable sortTruthy input output : Bool) : SortKeySel :=
  if sortCallable then SortKeySel.caller
  else if sortTruthy then
    let sk := SortKeySel.nosort
    let sk := if input ∧ ¬output then SortKeySel.read_pref else sk
    let sk := if output ∧ ¬input then SortKeySel.write_pref else SortKeySel.rw_pref
    sk
  else SortKeySel.nosort

/-- A `select.poll` object, identified by its registrations
(`register(fd, eventmask)` calls). -/
structure PollObj where
  regs : List (Int × Nat)
deriving DecidableEq, Repr

/-- The poll objects of a `SequencerClient`: `__init__` creates
`_read_poll` registered for `POLLIN` and `_write_poll` registered for
`POLLOUT`, both on the single shared descriptor `_fd`. -/
structure SyncClient where
  fd : Int
  read_poll : PollObj
  write_poll : PollObj
deriving DecidableEq, Repr

/-- `SequencerClient.__init__` (the poll setup part). -/
def SyncClient.make (fd : Int) : SyncClient :=
  { fd := fd,
    read_poll := { regs := [(fd, POLLIN)] },
    write_poll := { regs := [(fd, POLLOUT)] } }

/-- How a waited operation resolves. -/
inductive WaitResult where
  /-- the non-blocking call returned a non-negative status `r` -/
  | ok (r : Int)
  /-- the deadline elapsed: the call returns `None` -/
  | timedOut
  /-- `_check_alsa_error` raised for status `code` -/
  | err (code : Int)
  /-- fuel exhausted (the loop is still running) -/
  | noFuel
  /-- the cooperative operation is suspended forever (no timeout, the
  descriptor never fires) -/
  | pending
deriving DecidableEq, Repr

/-- Result of a synchronous waited call plus the trace of
`poll(remaining)` calls it performed: which poll object, and the
`remaining` argument (`none` models Python `None`, i.e. block
indefinitely). -/
structure SyncWaitOut where
  result : WaitResult
  polls : List (PollObj × Option ℚ)
deriving DecidableEq, Repr

/-- The `while True` loop of `SequencerClient.event_input`: iteration
`i` calls `self._event_input()` (status `attempt i`); a status other
than `-EAGAIN` breaks the loop and is checked; on would-block, when a
deadline `until?` is set the remaining time is recomputed from a fresh
`time.monotonic()` sample (`clock (i+1)`) and the call returns `None`
when it is ≤ 0; otherwise `self._read_poll.poll(remaining)` blocks and
the loop retries. -/
def event_input_loop (c : SyncClient) (attempt : Nat → Int) (clock : Nat → ℚ)
    (until? : Option ℚ) : Nat → Nat → SyncWaitOut
  | _, 0 => ⟨.noFuel, []⟩
  | i, fuel + 1 =>
      let r := attempt i
      if r = -EAGAIN then
        match until? with
        | some u =>
            let remaining := u - clock (i + 1)
            if remaining ≤ 0 then ⟨.timedOut, []⟩
            else
              let rest := event_input_loop c attempt clock until? (i + 1) fuel
              ⟨rest.result, (c.read_poll, some remaining) :: rest.polls⟩
        | none =>
            let rest := event_input_loop c attempt clock until? (i + 1) fuel
            ⟨rest.result, (c.read_poll, none) :: rest.polls⟩
      else if r < 0 then ⟨.err r, []⟩
      else ⟨.ok r, []⟩

/-- `SequencerClient.event_input(timeout)`: a truthy (non-`None`,
non-zero) timeout fixes the deadline `until = time.monotonic() +
timeout` at call start (monotonic sample 0); otherwise `until` is
`None`.  Then the retry loop runs. -/
def sc_event_input (c : SyncClient) (timeout : Option ℚ)
    (attempt : Nat → Int) (clock : Nat → ℚ) (fuel : Nat) : SyncWaitOut :=
  let until? : Option ℚ :=
    match timeout with
    | some t => if t = 0 then none else some (clock 0 + t)
    | none => none
  event_input_loop c attempt clock until? 0 fuel

/-- The `while True` loop of `SequencerClient._event_output_wait`:
identical retry structure to the input loop, but each iteration calls
the supplied output `func` and blocks on
`self._write_poll.poll(remaining)`. -/
def event_output_loop (c : SyncClient) (attempt : Nat → Int) (clock : Nat → ℚ)
    (until? : Option ℚ) : Nat → Nat → SyncWaitOut
  | _, 0 => ⟨.noFuel, []⟩
  | i, fuel + 1 =>
      let r := attempt i
      if r = -EAGAIN then
        match until? with
        | some u =>
            let remaining := u - clock (i + 1)
            if remaining ≤ 0 then ⟨.timedOut, []⟩
            else
              let rest := event_output_loop c attempt clock until? (i + 1) fuel
              ⟨rest.result, (c.write_poll, some remaining) :: rest.polls⟩
        | none =>
            let rest := event_output_loop c attempt clock until? (i + 1) fuel
            ⟨rest.result, (c.write_poll, none) :: rest.polls⟩
      else if r < 0 then ⟨.err r, []⟩
      else ⟨.ok r, []⟩

/-- `SequencerClient._event_output_wait(func, timeout)`: deadline setup
as in `sc_event_input`, then the output retry loop. -/
def sc_event_output_wait (c : SyncClient) (timeout : Option ℚ)
    (attempt : Nat → Int) (clock : Nat → ℚ) (fuel : Nat) : SyncWaitOut :=
  let until? : Option ℚ :=
    match timeout with
    | some t => if t = 0 then none else some (clock 0 + t)
    | none => none
  event_output_loop c attempt clock until? 0 fuel

/-- An action on the asyncio event loop's descriptor registrations. -/
inductive LoopAction where
  | addReader (fd : Int)
  | removeReader (fd : Int)
  | addWriter (fd : Int)
  | removeWriter (fd : Int)
deriving DecidableEq, Repr

/-- Result of a cooperative waited call plus the trace of descriptor
registration actions it (and its callback) performed. -/
structure AsyncWaitOut where
  result : WaitResult
  actions : List LoopAction
deriving DecidableEq, Repr

/-- `_check_alsa_error` applied to the final status of a waited call. -/
def finish_status (r : Int) : WaitResult :=
  if r < 0 then .err r else .ok r

/-- `AsyncSequencerClient.event_input(timeout)`.  `first` is the status
of the immediate `self._event_input()` attempt; when it is `-EAGAIN`
the call registers `reader_cb` with `loop.add_reader(fd, reader_cb)`
and awaits a future.  `fut = some (τ, r)` models the callback firing at
time `τ` after call start and observing the non-would-block status `r`:
at that moment the callback removes the reader registration and
resolves the future; `fut = none` models the descriptor never producing
a non-would-block status.  A truthy timeout `t` races the future
against `asyncio.wait_for`'s timer: expiry before resolution returns
`None` — without touching the registration; a falsy timeout awaits the
future indefinitely. -/
def async_event_input (timeout : Option ℚ) (first : Int)
    (fut : Option (ℚ × Int)) (fd : Int) : AsyncWaitOut :=
  if first ≠ -EAGAIN then ⟨finish_status first, []⟩
  else
    match timeout, fut with
    | some t, some (tau, r) =>
        if t ≠ 0 then
          if tau ≤ t then ⟨finish_status r, [.addReader fd, .removeReader fd]⟩
          else ⟨.timedOut, [.addReader fd]⟩
        else ⟨finish_status r, [.addReader fd, .removeReader fd]⟩
    | some t, none =>
        if t ≠ 0 then ⟨.timedOut, [.addReader fd]⟩
        else ⟨.pending, [.addReader fd]⟩
    | none, some (_, r) => ⟨finish_status r, [.addReader fd, .removeReader fd]⟩
    | none, none => ⟨.pending, [.addReader fd]⟩

/-- `AsyncSequencerClient._event_output_wait(func, timeout)`: same
structure as the cooperative input wait, with `func()` as the first
attempt and `writer_cb` as the callback — which the source registers
with `loop.add_reader(fd, writer_cb)` (read interest) and deregisters
with `loop.remove_reader(fd)`. -/
def async_event_output_wait (timeout : Option ℚ) (first : Int)
    (fut : Option (ℚ × Int)) (fd : Int) : AsyncWaitOut :=
  if first ≠ -EAGAIN then ⟨finish_status first, []⟩
  else
    match timeout, fut with
    | some t, some (tau, r) =>
        if t ≠ 0 then
          if tau ≤ t then ⟨finish_status r, [.addReader fd, .removeReader fd]⟩
          else ⟨.timedOut, [.addReader fd]⟩
        else ⟨finish_status r, [.addReader fd, .removeReader fd]⟩
    | some t, none =>
        if t ≠ 0 then ⟨.timedOut, [.addReader fd]⟩
        else ⟨.pending, [.addReader fd]⟩
    | none, some (_, r) => ⟨finish_status r, [.addReader fd, .removeReader fd]⟩
    | none, none => ⟨.pending, [.addReader fd]⟩

/-- C8: close is idempotent: for every client state, closing twice
leaves the handle in the same state as closing once — in particular the
second call performs no further `snd_seq_close` release (`closeCalls`
unchanged) and, `ClientState.close` being total, raises nothing. -/
theorem close_idempotent (st : ClientState) : st.close.close = st.close := by
  cases h : st.handle_p <;> simp [ClientState.close, h]

/-- C10: the snapshot `ClientInfo._from_alsa` decodes always has
`error_bounce` equal to `broadcast_filter`, because both are read from
the broadcast-filter accessor; the native record's own error-bounce
value does not influence the snapshot at all. -/
theorem client_info_error_bounce_mirrors_broadcast_filter
    (info : NativeClientInfoRec) (b : Int) :
    (ClientInfoM.from_alsa info).error_bounce
      = (ClientInfoM.from_alsa info).broadcast_filter
    ∧ ClientInfoM.from_alsa { info with error_bounce := b }
      = ClientInfoM.from_alsa info :=
  ⟨rfl, rfl⟩

/-- C3 (code bug): with `sort=True` (not callable) the selection of the
preferred-type table is NOT the claimed first-match priority: because
the input-only assignment is followed by an independent
`if output and not input ... else ...` whose `else` reassigns
unconditionally, a call with `input=True` and `output` unset/false sorts
by the bidirectional (`RW_PORT_PREFERRED_TYPES`) table, not the
read-preferred one.  Output-only requests do get the write-preferred
table, and both/neither requests the bidirectional one. -/
theorem sort_sel_input_only_gets_rw_table :
    list_ports_sort_sel false true true false = SortKeySel.rw_pref
    ∧ list_ports_sort_sel false true true false ≠ SortKeySel.read_pref
    ∧ list_ports_sort_sel false true false true = SortKeySel.write_pref
    ∧ list_ports_sort_sel false true true true = SortKeySel.rw_pref
    ∧ list_ports_sort_sel false true false false = SortKeySel.rw_pref := by
  decide

/-- C1 (code bug): on a closed client, `get_port_info` and
`event_input` do not raise `StateError`; they proceed to attempt native
calls (`snd_seq_port_info_malloc`, then the get/input call on the
`None` handle, which the FFI rejects with a `TypeError`).  By contrast
the guarded operations (`create_port`, `event_output`) do fail with
`StateError` before any native call. -/
theorem closed_client_check_missing_on_get_port_info_and_event_input :
    (get_port_info ⟨none, 20, 1⟩ (.inl 0) 0 0 ⟨20, 0, "p", 0, 0, ""⟩).result
      ≠ .err .state
    ∧ (get_port_info ⟨none, 20, 1⟩ (.inl 0) 0 0 ⟨20, 0, "p", 0, 0, ""⟩).nativeCalls
      = ["snd_seq_port_info_malloc", "snd_seq_get_port_info", "snd_seq_port_info_free"]
    ∧ (event_input_base ⟨none, 20, 1⟩ 0).result ≠ .err .state
    ∧ (event_input_base ⟨none, 20, 1⟩ 0).nativeCalls = ["snd_seq_event_input"]
    ∧ (create_port ⟨none, 20, 1⟩ 0).result = .err .state
    ∧ (create_port ⟨none, 20, 1⟩ 0).nativeCalls = []
    ∧ (event_output_base ⟨none, 20, 1⟩ 0).result = .err .state
    ∧ (event_output_base ⟨none, 20, 1⟩ 0).nativeCalls = [] := by
  decide

/-- C4 (code bug): a cooperative `event_input` with a positive timeout
that suspends on would-block and is then abandoned by timeout expiry
returns the timed-out result with the reader-callback registration
still present: the action trace contains the `add_reader` but no
`remove_reader`. -/
theorem async_input_timeout_leaves_reader_registered :
    (async_event_input (some 1) (-11) none 5).result = .timedOut
    ∧ (async_event_input (some 1) (-11) none 5).actions = [LoopAction.addReader 5]
    ∧ LoopAction.removeReader 5 ∉ (async_event_input (some 1) (-11) none 5).actions := by
  decide

/-- C6 (code bug): the synchronous waiter does keep two independent
registrations on the shared descriptor — `_read_poll` with `POLLIN`
used by `event_input`, `_write_poll` with `POLLOUT` used by the output
wait — but the cooperative output wait registers READ interest
(`loop.add_reader`) on would-block, not write interest. -/
theorem async_output_wait_registers_read_interest :
    (async_event_output_wait (some 1) (-11) none 7).result = .timedOut
    ∧ (async_event_output_wait (some 1) (-11) none 7).actions = [LoopAction.addReader 7]
    ∧ (SyncClient.make 7).read_poll.regs = [(7, POLLIN)]
    ∧ (SyncClient.make 7).write_poll.regs = [(7, POLLOUT)]
    ∧ POLLIN ≠ POLLOUT
    ∧ (sc_event_output_wait (SyncClient.make 7) none (fun _ => -11) (fun _ => 0) 1).polls
      = [((SyncClient.make 7).write_poll, none)]
    ∧ (sc_event_input (SyncClient.make 7) none (fun _ => -11) (fun _ => 0) 1).polls
      = [((SyncClient.make 7).read_poll, none)] := by
  decide

/-- Helper for C5: a port kept by the filter with only-input requested
and only-connectable has read and subscribable-read capability. -/
theorem list_ports_keep_input_connectable (output : Bool) (ptype : Nat)
    (inc_ne : Bool) (q : PortInfoM)
    (h : list_ports_keep true output ptype inc_ne true q = true) :
    (q.capability &&& PORT_CAP_READ) ≠ 0
    ∧ (q.capability &&& PORT_CAP_SUBS_READ) ≠ 0 := by
  simp only [list_ports_keep] at h
  split_ifs at h with h1 h2 h3 h4 h5 h6 h7 h8 h9
  all_goals try exact absurd trivial h7.1
  push_neg at h5 h6
  exact ⟨h5 trivial, h6 trivial trivial⟩

/-- C5: every port returned by the collection phase of `list_ports`
with `input=True` and `only_connectable=True` has both the read and the
subscribable-read capability bits. -/
theorem list_ports_input_connectable_caps (output : Bool) (ptype : Nat)
    (inc_s inc_mt inc_ne : Bool) (clients : List ClientRec) (p : PortInfoM)
    (hp : p ∈ list_ports_collect true output ptype inc_s inc_mt inc_ne true clients) :
    (p.capability &&& PORT_CAP_READ) ≠ 0
    ∧ (p.capability &&& PORT_CAP_SUBS_READ) ≠ 0 := by
  unfold list_ports_collect at hp
  rcases List.mem_flatMap.mp hp with ⟨c, _, hpc⟩
  split_ifs at hpc
  · simp at hpc
  · simp at hpc
  · rcases List.mem_map.mp hpc with ⟨q, hq, rfl⟩
    exact list_ports_keep_input_connectable output ptype inc_ne q
      (List.mem_filter.mp hq).2

/-- Witness for C5 at a concrete input: a one-client, one-port world
where the port has capabilities READ|SUBS_READ (= 33). -/
theorem list_ports_input_connectable_caps_witness :
    (⟨1, 0, "p", 33, 0, "c"⟩ : PortInfoM)
      ∈ list_ports_collect true false 0 false true true true
          [⟨1, "c", [⟨1, 0, "p", 33, 0, ""⟩]⟩]
    ∧ ((33 : Nat) &&& PORT_CAP_READ) ≠ 0
    ∧ ((33 : Nat) &&& PORT_CAP_SUBS_READ) ≠ 0 :=
  ⟨by decide,
   list_ports_input_connectable_caps false 0 false true true
     [⟨1, "c", [⟨1, 0, "p", 33, 0, ""⟩]⟩] ⟨1, 0, "p", 33, 0, "c"⟩ (by decide)⟩

/-- C7: on an open client with a successful descriptor allocation,
`query_next_client` returns `None` exactly when the native query
reports `-ENOENT`; any other negative status raises the checked ALSA
error; and an absent `previous` starts the traversal by writing -1 as
the cursor client id. -/
theorem query_next_client_contract (st : ClientState)
    (previous : Option (ClientInfoM ⊕ Int)) (mallocErr queryRes : Int)
    (outRec : NativeClientInfoRec)
    (hopen : st.handle_p ≠ none) (hmalloc : 0 ≤ mallocErr) :
    ((query_next_client st previous mallocErr queryRes outRec).result = .ok none
      ↔ queryRes = -ENOENT)
    ∧ (queryRes < 0 → queryRes ≠ -ENOENT →
        (query_next_client st previous mallocErr queryRes outRec).result
          = .err (.alsa queryRes))
    ∧ (previous = none →
        (query_next_client st previous mallocErr queryRes outRec).cursor_client
          = some (-1)) := by
  obtain ⟨b, hb⟩ := Option.ne_none_iff_exists'.mp hopen
  have hm : ¬(mallocErr < 0) := not_lt.mpr hmalloc
  unfold query_next_client query_tail
  rw [hb]
  rcases previous with _ | p
  · simp only [hm, if_false]
    refine ⟨?_, ?_, fun _ => ?_⟩
    · split_ifs with h1 h2 <;> simp_all
    · intro hneg hne
      split_ifs <;> simp_all
    · split_ifs <;> rfl
  · rcases p with info | prevId <;>
    · simp only [hm, if_false]
      refine ⟨?_, ?_, fun hc => by simp at hc⟩
      · split_ifs with h1 h2 <;> simp_all
      · intro hneg hne
        split_ifs <;> simp_all

/-- Witness for C7 at a concrete input: an open client, `previous`
absent, malloc succeeding, query reporting `-ENOENT`. -/
theorem query_next_client_contract_witness :
    ((query_next_client ⟨some true, 0, 0⟩ none 0 (-2) ⟨0, "", 0, 0, 0, 0, 0, 0, 0⟩).result
        = .ok none ↔ (-2 : Int) = -ENOENT)
    ∧ ((-2 : Int) < 0 → (-2 : Int) ≠ -ENOENT →
        (query_next_client ⟨some true, 0, 0⟩ none 0 (-2) ⟨0, "", 0, 0, 0, 0, 0, 0, 0⟩).result
          = .err (.alsa (-2)))
    ∧ ((none : Option (ClientInfoM ⊕ Int)) = none →
        (query_next_client ⟨some true, 0, 0⟩ none 0 (-2) ⟨0, "", 0, 0, 0, 0, 0, 0, 0⟩).cursor_client
          = some (-1)) :=
  query_next_client_contract ⟨some true, 0, 0⟩ none 0 (-2)
    ⟨0, "", 0, 0, 0, 0, 0, 0, 0⟩ (by decide) (by decide)

/-- C9: whenever `_subunsub_port` allocates the transient subscription
descriptor it also frees it — on the success path and on every error
path, including a failing submit call (which still surfaces the checked
ALSA error). -/
theorem subunsub_descriptor_always_freed (st : ClientState)
    (sender dest : Int × Int) (queue : Option Int)
    (exclusive time_update time_real : Bool) (mallocErr funcRes : Int) :
    ((subunsub_port st sender dest queue exclusive time_update time_real
        mallocErr funcRes).allocated = true →
      (subunsub_port st sender dest queue exclusive time_update time_real
        mallocErr funcRes).freed = true)
    ∧ (st.handle_p ≠ none → 0 ≤ mallocErr → funcRes < 0 →
        (subunsub_port st sender dest queue exclusive time_update time_real
          mallocErr funcRes).result = .err (.alsa funcRes)
        ∧ (subunsub_port st sender dest queue exclusive time_update time_real
            mallocErr funcRes).freed = true) := by
  unfold subunsub_port
  rcases h : st.handle_p with _ | b
  · simp
  · have := fun (hm : 0 ≤ mallocErr) => not_lt.mpr hm
    constructor
    · split_ifs <;> simp
    · intro _ hm hf
      simp [not_lt.mpr hm, hf]

/-- Witness for C9 at a concrete input: open client, malloc succeeding,
submit failing with status -22. -/
theorem subunsub_descriptor_always_freed_witness :
    ((subunsub_port ⟨some true, 0, 0⟩ (0, 0) (0, 1) none false false false
        0 (-22)).allocated = true →
      (subunsub_port ⟨some true, 0, 0⟩ (0, 0) (0, 1) none false false false
        0 (-22)).freed = true)
    ∧ ((⟨some true, 0, 0⟩ : ClientState).handle_p ≠ none → (0 : Int) ≤ 0 → (-22 : Int) < 0 →
        (subunsub_port ⟨some true, 0, 0⟩ (0, 0) (0, 1) none false false false
          0 (-22)).result = .err (.alsa (-22))
        ∧ (subunsub_port ⟨some true, 0, 0⟩ (0, 0) (0, 1) none false false false
            0 (-22)).freed = true) :=
  subunsub_descriptor_always_freed ⟨some true, 0, 0⟩ (0, 0) (0, 1) none
    false false false 0 (-22)

/-- Helper: `_check_alsa_error` on a final status never yields the
timed-out result. -/
theorem finish_status_ne_timedOut (r : Int) : finish_status r ≠ .timedOut := by
  unfold finish_status
  split_ifs <;> simp

/-- Helper for C2: with no deadline the synchronous input loop can
never resolve to the timed-out result. -/
theorem event_input_loop_none_ne_timedOut (c : SyncClient) (A : Nat → Int)
    (C : Nat → ℚ) : ∀ (fuel i : Nat),
    (event_input_loop c A C none i fuel).result ≠ .timedOut := by
  intro fuel
  induction fuel with
  | zero => intro i; simp [event_input_loop]
  | succ n ih =>
      intro i
      simp only [event_input_loop]
      split_ifs with h h2
      · simpa using ih (i + 1)
      · simp
      · simp

/-- Helper for C2: with no deadline the synchronous output loop can
never resolve to the timed-out result. -/
theorem event_output_loop_none_ne_timedOut (c : SyncClient) (A : Nat → Int)
    (C : Nat → ℚ) : ∀ (fuel i : Nat),
    (event_output_loop c A C none i fuel).result ≠ .timedOut := by
  intro fuel
  induction fuel with
  | zero => intro i; simp [event_output_loop]
  | succ n ih =>
      intro i
      simp only [event_output_loop]
      split_ifs with h h2
      · simpa using ih (i + 1)
      · simp
      · simp

/-- Helper for C2: in the synchronous input loop with deadline `u`, if
every attempt up to iteration `d` would-block, every earlier re-check
still had remaining time, and the re-check of iteration `d` finds
remaining time ≤ 0, then (given fuel) the loop resolves to the
timed-out result. -/
theorem event_input_loop_timedOut_of (c : SyncClient) (A : Nat → Int)
    (C : Nat → ℚ) (u : ℚ) : ∀ (d s fuel : Nat), d < fuel →
    (∀ j, j ≤ d → A (s + j) = -EAGAIN) →
    (∀ j, j < d → 0 < u - C (s + j + 1)) →
    u - C (s + d + 1) ≤ 0 →
    (event_input_loop c A C (some u) s fuel).result = .timedOut := by
  intro d
  induction d with
  | zero =>
      intro s fuel hf hA _ hle
      obtain ⟨f, rfl⟩ : ∃ f, fuel = f + 1 := ⟨fuel - 1, by omega⟩
      have h0 : A s = -EAGAIN := by simpa using hA 0 (le_refl 0)
      have hle' : u - C (s + 1) ≤ 0 := by simpa using hle
      simp [event_input_loop, h0, hle']
  | succ d ih =>
      intro s fuel hf hA hpre hle
      obtain ⟨f, rfl⟩ : ∃ f, fuel = f + 1 := ⟨fuel - 1, by omega⟩
      have h0 : A s = -EAGAIN := by simpa using hA 0 (by omega)
      have hgt : 0 < u - C (s + 1) := by simpa using hpre 0 (by omega)
      have hnle : ¬(u - C (s + 1) ≤ 0) := not_le.mpr hgt
      have hrec := ih (s + 1) f (by omega)
        (fun j hj => by
          have := hA (j + 1) (by omega)
          rwa [show s + (j + 1) = s + 1 + j by omega] at this)
        (fun j hj => by
          have := hpre (j + 1) (by omega)
          rwa [show s + (j + 1) + 1 = s + 1 + j + 1 by omega] at this)
        (by
          have := hle
          rwa [show s + (d + 1) + 1 = s + 1 + d + 1 by omega] at this)
      simp [event_input_loop, h0, hnle, hrec]

/-- Helper for C2: same as `event_input_loop_timedOut_of` for the
output loop. -/
theorem event_output_loop_timedOut_of (c : SyncClient) (A : Nat → Int)
    (C : Nat → ℚ) (u : ℚ) : ∀ (d s fuel : Nat), d < fuel →
    (∀ j, j ≤ d → A (s + j) = -EAGAIN) →
    (∀ j, j < d → 0 < u - C (s + j + 1)) →
    u - C (s + d + 1) ≤ 0 →
    (event_output_loop c A C (some u) s fuel).result = .timedOut := by
  intro d
  induction d with
  | zero =>
      intro s fuel hf hA _ hle
      obtain ⟨f, rfl⟩ : ∃ f, fuel = f + 1 := ⟨fuel - 1, by omega⟩
      have h0 : A s = -EAGAIN := by simpa using hA 0 (le_refl 0)
      have hle' : u - C (s + 1) ≤ 0 := by simpa using hle
      simp [event_output_loop, h0, hle']
  | succ d ih =>
      intro s fuel hf hA hpre hle
      obtain ⟨f, rfl⟩ : ∃ f, fuel = f + 1 := ⟨fuel - 1, by omega⟩
      have h0 : A s = -EAGAIN := by simpa using hA 0 (by omega)
      have hgt : 0 < u - C (s + 1) := by simpa using hpre 0 (by omega)
      have hnle : ¬(u - C (s + 1) ≤ 0) := not_le.mpr hgt
      have hrec := ih (s + 1) f (by omega)
        (fun j hj => by
          have := hA (j + 1) (by omega)
          rwa [show s + (j + 1) = s + 1 + j by omega] at this)
        (fun j hj => by
          have := hpre (j + 1) (by omega)
          rwa [show s + (j + 1) + 1 = s + 1 + j + 1 by omega] at this)
        (by
          have := hle
          rwa [show s + (d + 1) + 1 = s + 1 + d + 1 by omega] at this)
      simp [event_output_loop, h0, hnle, hrec]

/-- C2: timeout semantics of all four waited calls.  First conjunct:
with an unset (`None`) or zero timeout none of the four waiters —
synchronous input, synchronous output, cooperative input, cooperative
output — can resolve to the timed-out value.  Second conjunct: for a
positive timeout `t` the synchronous waiters fix the deadline
`clock 0 + t` at call start, and at the first would-block re-check
whose remaining time is ≤ 0 (all attempts so far would-blocking, all
earlier re-checks with time remaining) the call resolves to the
timed-out value (returned as `None`), not an error.  Third conjunct:
for a positive timeout, a cooperative call that suspends on would-block
and whose future is not resolved within `t` resolves to the timed-out
value. -/
theorem wait_timeout_semantics (c : SyncClient) (attempt : Nat → Int)
    (clock : Nat → ℚ) (fuel : Nat) (t : ℚ) (first : Int)
    (fut : Option (ℚ × Int)) (fd : Int) :
    ((sc_event_input c none attempt clock fuel).result ≠ .timedOut
     ∧ (sc_event_input c (some 0) attempt clock fuel).result ≠ .timedOut
     ∧ (sc_event_output_wait c none attempt clock fuel).result ≠ .timedOut
     ∧ (sc_event_output_wait c (some 0) attempt clock fuel).result ≠ .timedOut
     ∧ (async_event_input none first fut fd).result ≠ .timedOut
     ∧ (async_event_input (some 0) first fut fd).result ≠ .timedOut
     ∧ (async_event_output_wait none first fut fd).result ≠ .timedOut
     ∧ (async_event_output_wait (some 0) first fut fd).result ≠ .timedOut)
    ∧ (0 < t → ∀ i : Nat, i < fuel →
        (∀ j, j ≤ i → attempt j = -EAGAIN) →
        (∀ j, j < i → 0 < clock 0 + t - clock (j + 1)) →
        clock 0 + t - clock (i + 1) ≤ 0 →
        (sc_event_input c (some t) attempt clock fuel).result = .timedOut
        ∧ (sc_event_output_wait c (some t) attempt clock fuel).result = .timedOut)
    ∧ (0 < t → first = -EAGAIN →
        (∀ tau r, fut = some (tau, r) → t < tau) →
        (async_event_input (some t) first fut fd).result = .timedOut
        ∧ (async_event_output_wait (some t) first fut fd).result = .timedOut) := by
  refine ⟨⟨?_, ?_, ?_, ?_, ?_, ?_, ?_, ?_⟩, ?_, ?_⟩
  · exact event_input_loop_none_ne_timedOut c attempt clock fuel 0
  · have h : sc_event_input c (some 0) attempt clock fuel
        = event_input_loop c attempt clock none 0 fuel := by
      simp [sc_event_input]
    rw [h]
    exact event_input_loop_none_ne_timedOut c attempt clock fuel 0
  · exact event_output_loop_none_ne_timedOut c attempt clock fuel 0
  · have h : sc_event_output_wait c (some 0) attempt clock fuel
        = event_output_loop c attempt clock none 0 fuel := by
      simp [sc_event_output_wait]
    rw [h]
    exact event_output_loop_none_ne_timedOut c attempt clock fuel 0
  · rcases fut with _ | ⟨tau, r⟩ <;> by_cases hf : first = -EAGAIN <;>
      simp [async_event_input, hf, finish_status_ne_timedOut]
  · rcases fut with _ | ⟨tau, r⟩ <;> by_cases hf : first = -EAGAIN <;>
      simp [async_event_input, hf, finish_status_ne_timedOut]
  · rcases fut with _ | ⟨tau, r⟩ <;> by_cases hf : first = -EAGAIN <;>
      simp [async_event_output_wait, hf, finish_status_ne_timedOut]
  · rcases fut with _ | ⟨tau, r⟩ <;> by_cases hf : first = -EAGAIN <;>
      simp [async_event_output_wait, hf, finish_status_ne_timedOut]
  · intro ht i hif hA hpre hle
    have ht0 : ¬(t = 0) := ne_of_gt ht
    constructor
    · have h : sc_event_input c (some t) attempt clock fuel
          = event_input_loop c attempt clock (some (clock 0 + t)) 0 fuel := by
        simp [sc_event_input, ht0]
      rw [h]
      exact event_input_loop_timedOut_of c attempt clock (clock 0 + t) i 0 fuel
        hif (fun j hj => by simpa using hA j hj)
        (fun j hj => by simpa using hpre j hj) (by simpa using hle)
    · have h : sc_event_output_wait c (some t) attempt clock fuel
          = event_output_loop c attempt clock (some (clock 0 + t)) 0 fuel := by
        simp [sc_event_output_wait, ht0]
      rw [h]
      exact event_output_loop_timedOut_of c attempt clock (clock 0 + t) i 0 fuel
        hif (fun j hj => by simpa using hA j hj)
        (fun j hj => by simpa using hpre j hj) (by simpa using hle)
  · intro ht hf hfut
    have ht0 : t ≠ 0 := ne_of_gt ht
    rcases fut with _ | ⟨tau, r⟩
    · constructor <;> simp [async_event_input, async_event_output_wait, hf, ht0]
    · have htau : ¬(tau ≤ t) := not_le.mpr (hfut tau r rfl)
      constructor <;>
        simp [async_event_input, async_event_output_wait, hf, ht0, htau]

/-- Witness for C2 at concrete inputs: over the integer-valued clock
`n ↦ n`, with every attempt would-blocking, a call with timeout 1 times
out at the first re-check, while the same call with no timeout does
not. -/
theorem wait_timeout_semantics_witness :
    (sc_event_input (SyncClient.make 3) (some 1) (fun _ => -11)
        (fun n => (n : ℚ)) 1).result = .timedOut
    ∧ (sc_event_output_wait (SyncClient.make 3) (some 1) (fun _ => -11)
        (fun n => (n : ℚ)) 1).result = .timedOut
    ∧ (async_event_input (some 1) (-11) none 3).result = .timedOut
    ∧ (async_event_output_wait (some 1) (-11) none 3).result = .timedOut
    ∧ (sc_event_input (SyncClient.make 3) none (fun _ => -11)
        (fun n => (n : ℚ)) 1).result ≠ .timedOut := by
  have h := wait_timeout_semantics (SyncClient.make 3) (fun _ => -11)
    (fun n => (n : ℚ)) 1 1 (-11) none 3
  have hsync := h.2.1 one_pos 0 (by decide) (fun j _ => by decide)
    (fun j hj => absurd hj (Nat.not_lt_zero j)) (by norm_num)
  have hasync := h.2.2 one_pos (by decide) (fun tau r hc => by simp at hc)
  exact ⟨hsync.1, hsync.2, hasync.1, hasync.2, h.1.1⟩
